import Mathlib

/-!
Verification of the microtrip trip-planning application

Shallow embedding of the microtrip repository (Express backend plus
React/Next.js frontend) and proofs about its observable behaviour.

The embedded pieces are:

* the trip recommendation endpoint of `backend/src/index.ts`
  (`POST /api/trips/recommend`), whose itinerary assembler slices two
  upstream place lists into six fixed time slots;
* the city search endpoint of `backend/src/index.ts`
  (`POST /api/cities/search`);
* the crowd-level computation of `src/components/VenueStatus.tsx`;
* the two results-page variants (`frontend/src/app/results/page.tsx` and
  the unnamed duplicate), in particular their `getPhotoUrl` logic and the
  load-from-storage effect;
* the JSON round trip through client-side storage, modelled at the level
  of JSON documents.

Machine-level concerns (floating point values of ratings and coordinates)
only pass through the code unexamined, so JSON numbers are modelled as `ℚ`.
-/

/-! ## Data model

`Place` mirrors the fields requested by the field mask of the recommend endpoint
(`places.id, places.displayName, places.formattedAddress, places.rating,
places.userRatingCount, places.photos`) and by the frontend `Place`
interface.  `displayName` in the JSON is an object with a `text` field; the
photo entries used by the results pages carry a `name` field. -/

structure Photo where
  name : String
deriving DecidableEq, Repr

structure Place where
  id : String
  displayName : String
  formattedAddress : String
  rating : Option ℚ
  userRatingCount : Option ℚ
  photos : Option (List Photo)
deriving DecidableEq, Repr

/-- Upstream `places:searchText` response body: the `places` field may be
absent (`PlacesResponse` in `backend/src/index.ts`). -/
structure PlacesResponse where
  places : Option (List Place)
deriving DecidableEq, Repr

structure TimeSlot where
  title : String
  description : String
  places : List Place
deriving DecidableEq, Repr

structure Day where
  morning : TimeSlot
  afternoon : TimeSlot
  evening : TimeSlot
deriving DecidableEq, Repr

structure TripRecommendation where
  city : String
  day1 : Day
  day2 : Day
deriving DecidableEq, Repr

/-! ## Itinerary assembler (`POST /api/trips/recommend`) -/

/-- JavaScript `Array.prototype.slice(start, stop)` for the non-negative
in-range arguments the assembler uses. -/
def jsSlice (l : List α) (start stop : Nat) : List α :=
  (l.drop start).take (stop - start)

/-- The recommend handler, `backend/src/index.ts` lines 173-253, after the
two upstream fetches have produced `attractionsResponse.data` and
`restaurantsResponse.data`.  The upstream fetches depend only on
`cityName`; `budget` and `tripType` are destructured from the request body
but used only in a log line. -/
def recommendTrip (cityName _budget _tripType : String)
    (attractionsData restaurantsData : PlacesResponse) : TripRecommendation :=
  let attractions := attractionsData.places.getD []
  let restaurants := restaurantsData.places.getD []
  { city := cityName
    day1 :=
      { morning :=
          { title := "Morning Exploration"
            description := "Start your day exploring the city\x27s main attractions"
            places := jsSlice attractions 0 2 }
        afternoon :=
          { title := "Afternoon Activities"
            description := "Continue discovering the city\x27s highlights"
            places := jsSlice attractions 2 4 }
        evening :=
          { title := "Evening Entertainment"
            description := "Enjoy dinner and evening activities"
            places := jsSlice restaurants 0 2 } }
    day2 :=
      { morning :=
          { title := "Morning Activities"
            description := "Start your second day with local experiences"
            places := jsSlice attractions 4 6 }
        afternoon :=
          { title := "Afternoon Exploration"
            description := "More city highlights and activities"
            places := jsSlice attractions 6 8 }
        evening :=
          { title := "Farewell Evening"
            description := "End your trip with memorable experiences"
            places := jsSlice restaurants 2 4 } } }

/-- Total number of place entries across the six slots of a recommendation. -/
def totalPlaces (r : TripRecommendation) : Nat :=
  r.day1.morning.places.length + r.day1.afternoon.places.length +
  r.day1.evening.places.length + r.day2.morning.places.length +
  r.day2.afternoon.places.length + r.day2.evening.places.length

/-- A concrete place with no optional fields, for witnesses. -/
def mkPlace (s : String) : Place :=
  { id := s, displayName := s, formattedAddress := s
    rating := none, userRatingCount := none, photos := none }

/-! ## Crowd level (`src/components/VenueStatus.tsx`) -/

/-- The four labels admitted by `VenueData.crowdLevel`. -/
inductive CrowdLevel where
  | Low
  | Moderate
  | High
  | VeryHigh
deriving DecidableEq, Repr

/-- The crowd-level estimation of `fetchVenueData`
(`VenueStatus.tsx` lines 64-74): a lookup on the local wall-clock hour. -/
def crowdLevelAt (hour : Nat) : CrowdLevel :=
  if (11 ≤ hour ∧ hour ≤ 14) ∨ (18 ≤ hour ∧ hour ≤ 20) then .High
  else if 9 ≤ hour ∧ hour ≤ 17 then .Moderate
  else .Low

/-- The fields of the upstream place-details response that `setVenueData`
reads (`name,rating,userRatingCount,formattedAddress,photos,
currentOpeningHours` field mask). -/
structure VenueDetails where
  name : String
  rating : Option ℚ
  userRatingCount : Option ℚ
  formattedAddress : Option String
  photos : Option (List Photo)
  openNow : Option Bool
deriving DecidableEq, Repr

structure VenueData where
  name : String
  currentWaitTime : Nat
  crowdLevel : CrowdLevel
  isOperational : Bool
  rating : Option ℚ
  userRatingCount : Option ℚ
  formattedAddress : Option String
  photos : Option (List Photo)
deriving DecidableEq, Repr

/-- The `setVenueData` payload of `fetchVenueData`
(`VenueStatus.tsx` lines 83-96): `hour` is the local wall-clock hour and
`randomWait` the sampled `Math.floor(Math.random() * 30)`. -/
def mkVenueData (details : VenueDetails) (hour : Nat) (randomWait : Nat) :
    VenueData :=
  { name := details.name
    crowdLevel := crowdLevelAt hour
    currentWaitTime := randomWait
    isOperational := details.openNow.getD false
    rating := details.rating
    userRatingCount := details.userRatingCount
    formattedAddress := details.formattedAddress
    photos := details.photos }

/-! ## City search endpoint (`POST /api/cities/search`) -/

/-- The response places of the city search field mask
(`places.displayName,places.formattedAddress,places.location`). -/
structure CityPlace where
  displayName : String
  formattedAddress : String
  latitude : ℚ
  longitude : ℚ
deriving DecidableEq, Repr

structure CitySearchResponse where
  places : Option (List CityPlace)
deriving DecidableEq, Repr

/-- Body of an HTTP response of the city search endpoint: either the
`{places: [...]}` success shape or the `{error, details}` envelope. -/
inductive CitySearchBody where
  | placesBody (ps : List CityPlace)
  | errorBody (error : String) (details : String)
deriving DecidableEq, Repr

structure HttpResponse where
  status : Nat
  body : CitySearchBody
deriving DecidableEq, Repr

/-- The city search handler, `backend/src/index.ts` lines 79-127.
`apiKey` is `process.env.GOOGLE_PLACES_API_KEY`; `upstream` is the outcome
of the awaited axios call (`Except.error d` models a rejected promise
whose error carries details `d`).  A missing key throws before the
upstream call, so in that case the handler ignores `upstream`; every
throw is caught and answered with status 500 and the fixed envelope.
Successful responses go through `res.json`, i.e. status 200. -/
def citySearchHandler (apiKey : Option String)
    (upstream : Except String CitySearchResponse) : HttpResponse :=
  match apiKey with
  | none =>
      { status := 500
        body := .errorBody "Failed to fetch cities"
          "Google Places API key is not configured" }
  | some _ =>
      match upstream with
      | .error details =>
          { status := 500, body := .errorBody "Failed to fetch cities" details }
      | .ok data =>
          match data.places with
          | none => { status := 200, body := .placesBody [] }
          | some ps => { status := 200, body := .placesBody ps }

/-! ## Photo URL construction, results-page variant `src/unnamed/part_000`

`getPhotoUrl` splits the photo resource name on `/`, rejects fewer than 3
segments, then reads segments 1 and 3.  JavaScript indexation past the end
of the array yields `undefined`, and a template literal renders `undefined`
as the string `undefined`; `jsInterp` models that rendering. -/

/-- Rendering of a possibly-`undefined` JavaScript string inside a template
literal. -/
def jsInterp (v : Option String) : String :=
  v.getD "undefined"

/-- JavaScript `String.prototype.split` with a single-character separator: splits on
every occurrence, keeping empty segments, as JavaScript does.
(`accum` collects the characters of the current segment in reverse.) -/
def splitCharsAux (sep : Char) : List Char → List Char → List String
  | [], accum => [String.mk accum.reverse]
  | c :: rest, accum =>
      if c = sep then String.mk accum.reverse :: splitCharsAux sep rest []
      else splitCharsAux sep rest (c :: accum)

def jsSplit (s : String) (sep : Char) : List String :=
  splitCharsAux sep s.data []

/-- The `getPhotoUrl` of `src/unnamed/part_000` lines 40-65: splits the photo
resource name on `/`, rejects fewer than 3 segments with an empty string,
then interpolates segments 1 and 3 into the media URL. -/
def getPhotoUrl (apiKey : Option String) (photoReference : String) : String :=
  match apiKey with
  | none => ""
  | some key =>
      let parts := jsSplit photoReference '/'
      if parts.length < 3 then ""
      else
        "https://places.googleapis.com/v1/places/" ++ jsInterp (parts.get? 1)
          ++ "/photos/" ++ jsInterp (parts.get? 3)
          ++ "/media?key=" ++ key ++ "&maxHeightPx=400"

/-! ## JSON documents and the client-storage round trip

The recommendation object is written to `localStorage` with
`JSON.stringify` and read back with `JSON.parse`; the platform pair is
faithful on JSON documents, so the round trip is modelled on a JSON
document type.  `encodeTrip` is the document `JSON.stringify` produces for
a `TripRecommendation` (optional fields absent when `undefined`), and
`decodeTrip` reads the fields back the way the results pages consume
them. -/

inductive Json where
  | null
  | bool (b : Bool)
  | num (q : ℚ)
  | str (s : String)
  | arr (elems : List Json)
  | obj (fields : List (String × Json))

/-- Field lookup in the field list of a JSON object. -/
def jLookup : List (String × Json) → String → Option Json
  | [], _ => none
  | (k, v) :: rest, key => if k = key then some v else jLookup rest key

def Json.getField : Json → String → Option Json
  | .obj fields, key => jLookup fields key
  | _, _ => none

def encodePhoto (p : Photo) : Json :=
  .obj [("name", .str p.name)]

def encodePlace (p : Place) : Json :=
  .obj ([("id", .str p.id),
         ("displayName", .obj [("text", .str p.displayName)]),
         ("formattedAddress", .str p.formattedAddress)]
    ++ (match p.rating with
        | none => []
        | some q => [("rating", .num q)])
    ++ (match p.userRatingCount with
        | none => []
        | some q => [("userRatingCount", .num q)])
    ++ (match p.photos with
        | none => []
        | some ps => [("photos", .arr (ps.map encodePhoto))]))

def encodeSlot (s : TimeSlot) : Json :=
  .obj [("title", .str s.title),
        ("description", .str s.description),
        ("places", .arr (s.places.map encodePlace))]

def encodeDay (d : Day) : Json :=
  .obj [("morning", encodeSlot d.morning),
        ("afternoon", encodeSlot d.afternoon),
        ("evening", encodeSlot d.evening)]

def encodeTrip (t : TripRecommendation) : Json :=
  .obj [("city", .str t.city),
        ("day1", encodeDay t.day1),
        ("day2", encodeDay t.day2)]

def decodeStr : Option Json → Option String
  | some (.str s) => some s
  | _ => none

def decodeOptNum : Option Json → Option (Option ℚ)
  | none => some none
  | some (.num q) => some (some q)
  | _ => none

def decodePhoto (j : Json) : Option Photo :=
  match decodeStr (j.getField "name") with
  | some n => some { name := n }
  | none => none

def decodeListWith (f : Json → Option α) : List Json → Option (List α)
  | [] => some []
  | j :: rest =>
      match f j, decodeListWith f rest with
      | some a, some as => some (a :: as)
      | _, _ => none

def decodeArrWith (f : Json → Option α) : Json → Option (List α)
  | .arr elems => decodeListWith f elems
  | _ => none

/-- Decodes an absent field to `none` photos and a present field to the
decoded photo array. -/
def decodeOptPhotos : Option Json → Option (Option (List Photo))
  | none => some none
  | some j => (decodeArrWith decodePhoto j).map some

def decodePlace (j : Json) : Option Place :=
  (decodeStr (j.getField "id")).bind fun i =>
  (decodeStr ((j.getField "displayName").bind (Json.getField · "text"))).bind fun dn =>
  (decodeStr (j.getField "formattedAddress")).bind fun fa =>
  (decodeOptNum (j.getField "rating")).bind fun r =>
  (decodeOptNum (j.getField "userRatingCount")).bind fun urc =>
  (decodeOptPhotos (j.getField "photos")).map fun ph =>
  { id := i, displayName := dn, formattedAddress := fa
    rating := r, userRatingCount := urc, photos := ph }

def decodeSlot (j : Json) : Option TimeSlot :=
  (decodeStr (j.getField "title")).bind fun t =>
  (decodeStr (j.getField "description")).bind fun d =>
  ((j.getField "places").bind (decodeArrWith decodePlace)).map fun ps =>
  { title := t, description := d, places := ps }

def decodeDay (j : Json) : Option Day :=
  ((j.getField "morning").bind decodeSlot).bind fun m =>
  ((j.getField "afternoon").bind decodeSlot).bind fun a =>
  ((j.getField "evening").bind decodeSlot).map fun e =>
  { morning := m, afternoon := a, evening := e }

def decodeTrip (j : Json) : Option TripRecommendation :=
  (decodeStr (j.getField "city")).bind fun c =>
  ((j.getField "day1").bind decodeDay).bind fun d1 =>
  ((j.getField "day2").bind decodeDay).map fun d2 =>
  { city := c, day1 := d1, day2 := d2 }

/-! ## Results view load effect

Both results pages run the same `useEffect`
(`frontend/src/app/results/page.tsx` lines 144-156 and
`src/unnamed/part_000` lines 131-143): read the stored string, parse it in
a `try`/`catch`, and set either the recommendation or an error message.
`stored` models the three possible storage states: key absent, present but
rejected by `JSON.parse`, or present and parsed to a document. -/

inductive ResultsView where
  | errorScreen (message : String) (returnRoute : String)
  | spinner
  | itinerary (recommendation : Json)

/-- The `useEffect` body: final `(recommendation, error)` state pair. -/
def resultsInit (stored : Option (Except String Json)) :
    Option Json × Option String :=
  match stored with
  | none => (none, some "No trip recommendations found")
  | some (.error _) => (none, some "Failed to load trip recommendations")
  | some (.ok j) => (some j, none)

/-- The render branches of the results pages: error state first (with its
`router.push('/')` button), then the loading spinner, then the itinerary. -/
def resultsRender (recommendation : Option Json) (error : Option String) :
    ResultsView :=
  match error with
  | some msg => .errorScreen msg "/"
  | none =>
      match recommendation with
      | none => .spinner
      | some j => .itinerary j

def resultsView (stored : Option (Except String Json)) : ResultsView :=
  let st := resultsInit stored
  resultsRender st.1 st.2

/-! ## Helper lemmas -/

theorem take_two_slices_eight (l : List α) :
    l.take 2 ++ (l.drop 2).take 2 ++ (l.drop 4).take 2 ++ (l.drop 6).take 2 =
      l.take 8 := by
  rcases l with _ | ⟨a1, _ | ⟨a2, _ | ⟨a3, _ | ⟨a4, _ | ⟨a5, _ | ⟨a6, _ |
    ⟨a7, _ | ⟨a8, rest⟩⟩⟩⟩⟩⟩⟩⟩ <;> simp

theorem take_two_slices_four (l : List α) :
    l.take 2 ++ (l.drop 2).take 2 = l.take 4 := by
  rcases l with _ | ⟨a1, _ | ⟨a2, _ | ⟨a3, _ | ⟨a4, rest⟩⟩⟩⟩ <;> simp

theorem jsSlice_length (l : List α) (k : Nat) :
    (jsSlice l k (k + 2)).length = min 2 (l.length - k) := by
  simp [jsSlice]

theorem jsSlice_eq_nil {l : List α} {k m : Nat} (h : l.length ≤ k) :
    jsSlice l k m = [] := by
  simp [jsSlice, List.drop_eq_nil_of_le h]

/-! ## Claim theorems -/

/-- C1: for every pair of upstream result lists, the recommendation built
by the recommend endpoint has slot place-list sizes exactly
`min(2, max(0, A-k))` for the four attraction slots (day1.morning `k=0`,
day1.afternoon `k=2`, day2.morning `k=4`, day2.afternoon `k=6`) and
`min(2, max(0, R-k))` for the two restaurant slots (day1.evening `k=0`,
day2.evening `k=2`). -/
theorem recommend_slot_sizes (cityName budget tripType : String)
    (A R : List Place) :
    let r := recommendTrip cityName budget tripType ⟨some A⟩ ⟨some R⟩
    ((r.day1.morning.places.length : ℤ) = min 2 (max 0 ((A.length : ℤ) - 0)))
  ∧ ((r.day1.afternoon.places.length : ℤ) = min 2 (max 0 ((A.length : ℤ) - 2)))
  ∧ ((r.day2.morning.places.length : ℤ) = min 2 (max 0 ((A.length : ℤ) - 4)))
  ∧ ((r.day2.afternoon.places.length : ℤ) = min 2 (max 0 ((A.length : ℤ) - 6)))
  ∧ ((r.day1.evening.places.length : ℤ) = min 2 (max 0 ((R.length : ℤ) - 0)))
  ∧ ((r.day2.evening.places.length : ℤ) = min 2 (max 0 ((R.length : ℤ) - 2))) := by
  refine ⟨?_, ?_, ?_, ?_, ?_, ?_⟩ <;>
    simp [recommendTrip, jsSlice] <;> omega

/-- C4: two calls to the recommend endpoint that differ only in `budget`
and `tripType` produce identical recommendation objects. -/
theorem recommend_budget_trip_type_noninterference
    (cityName b₁ t₁ b₂ t₂ : String) (ar rr : PlacesResponse) :
    recommendTrip cityName b₁ t₁ ar rr = recommendTrip cityName b₂ t₂ ar rr :=
  rfl

/-- C10: the crowd-level computation never produces `Very High`: for every
hour the result is `Low`, `Moderate` or `High`. -/
theorem crowd_level_never_very_high (hour : Nat) :
    crowdLevelAt hour = .Low ∨ crowdLevelAt hour = .Moderate ∨
      crowdLevelAt hour = .High := by
  unfold crowdLevelAt
  split_ifs <;> simp

/-- Sample venue details, for witnesses. -/
def sampleVenue : VenueDetails :=
  { name := "Louvre", rating := none, userRatingCount := none
    formattedAddress := none, photos := none, openNow := some true }

/-- A second, different sample venue, for the venue-independence witness. -/
def sampleVenueB : VenueDetails :=
  { name := "Orsay", rating := some 4, userRatingCount := some 120
    formattedAddress := some "Paris", photos := none, openNow := none }

/-- C3: for every hour `h` in `0..23` the crowd level computed by the
Venue Status widget is `High` iff `h ∈ [11,14] ∪ [18,20]`, `Moderate` iff
`h ∈ [9,17]` and not `High`, and `Low` otherwise; and it is independent of
the venue details and the sampled wait time. -/
theorem venue_crowd_level_spec (h : Nat) (hh : h < 24)
    (d₁ d₂ : VenueDetails) (w₁ w₂ : Nat) :
    ((mkVenueData d₁ h w₁).crowdLevel = (mkVenueData d₂ h w₂).crowdLevel)
  ∧ ((mkVenueData d₁ h w₁).crowdLevel = .High ↔
      (11 ≤ h ∧ h ≤ 14) ∨ (18 ≤ h ∧ h ≤ 20))
  ∧ ((mkVenueData d₁ h w₁).crowdLevel = .Moderate ↔
      (9 ≤ h ∧ h ≤ 17) ∧ ¬((11 ≤ h ∧ h ≤ 14) ∨ (18 ≤ h ∧ h ≤ 20)))
  ∧ ((mkVenueData d₁ h w₁).crowdLevel = .Low ↔
      ¬((11 ≤ h ∧ h ≤ 14) ∨ (18 ≤ h ∧ h ≤ 20)) ∧ ¬(9 ≤ h ∧ h ≤ 17)) := by
  refine ⟨rfl, ?_, ?_, ?_⟩ <;>
    · show crowdLevelAt h = _ ↔ _
      interval_cases h <;> decide

/-- Witness for `venue_crowd_level_spec` at hour 12 with two different
venues and wait samples. -/
theorem venue_crowd_level_spec_witness :
    ((mkVenueData sampleVenue 12 0).crowdLevel =
        (mkVenueData sampleVenueB 12 7).crowdLevel)
  ∧ ((mkVenueData sampleVenue 12 0).crowdLevel = .High ↔
      (11 ≤ 12 ∧ 12 ≤ 14) ∨ (18 ≤ 12 ∧ 12 ≤ 20)) :=
  ⟨(venue_crowd_level_spec 12 (by decide) sampleVenue sampleVenueB 0 7).1,
   (venue_crowd_level_spec 12 (by decide) sampleVenue sampleVenueB 0 7).2.1⟩

/-- Three attractions, as returned upstream for the C2 scenario. -/
def parisAttractions : List Place :=
  [mkPlace "att1", mkPlace "att2", mkPlace "att3"]

/-- One restaurant, as returned upstream for the C2 scenario. -/
def parisRestaurants : List Place :=
  [mkPlace "rest1"]

/-- C2 counterexample: with 3 attractions and 1 restaurant upstream,
`day1.evening.places` has size 1, not 0 as claimed — `restaurants.slice(0, 2)`
still contains the single restaurant. -/
theorem recommend_paris_day1_evening_counterexample :
    (recommendTrip "Paris" "medium" "culture"
        ⟨some parisAttractions⟩ ⟨some parisRestaurants⟩).day1.evening.places.length
      ≠ 0 := by
  decide

/-- C2 amended: `recommendTrip("Paris", "medium", "culture")` with upstream
returning 3 attractions and 1 restaurant yields day1.morning with 2 places,
day1.afternoon with 1 place, day1.evening with 1 place (the single
restaurant lands in day 1), and all day-2 slots empty. -/
theorem recommend_paris_three_one (A R : List Place)
    (hA : A.length = 3) (hR : R.length = 1) :
    let r := recommendTrip "Paris" "medium" "culture" ⟨some A⟩ ⟨some R⟩
    r.day1.morning.places.length = 2
  ∧ r.day1.afternoon.places.length = 1
  ∧ r.day1.evening.places.length = 1
  ∧ r.day2.morning.places = []
  ∧ r.day2.afternoon.places = []
  ∧ r.day2.evening.places = [] := by
  obtain ⟨a, b, c, rfl⟩ := List.length_eq_three.mp hA
  obtain ⟨u, rfl⟩ := List.length_eq_one.mp hR
  refine ⟨?_, ?_, ?_, ?_, ?_, ?_⟩ <;> simp [recommendTrip, jsSlice]

/-- Witness for `recommend_paris_three_one` at concrete upstream lists. -/
theorem recommend_paris_three_one_witness :
    let r := recommendTrip "Paris" "medium" "culture"
      ⟨some parisAttractions⟩ ⟨some parisRestaurants⟩
    r.day1.morning.places.length = 2
  ∧ r.day1.afternoon.places.length = 1
  ∧ r.day1.evening.places.length = 1
  ∧ r.day2.morning.places = []
  ∧ r.day2.afternoon.places = []
  ∧ r.day2.evening.places = [] :=
  recommend_paris_three_one parisAttractions parisRestaurants
    (by decide) (by decide)

/-- Eight attractions, enough to fill all four attraction slots. -/
def eightAttractions : List Place :=
  [mkPlace "a1", mkPlace "a2", mkPlace "a3", mkPlace "a4",
   mkPlace "a5", mkPlace "a6", mkPlace "a7", mkPlace "a8"]

/-- Four restaurants, enough to fill both evening slots. -/
def fourRestaurants : List Place :=
  [mkPlace "r1", mkPlace "r2", mkPlace "r3", mkPlace "r4"]

/-- C5 counterexample: with 8 attractions and 4 restaurants upstream, the
six slots together hold 12 entries, not at most 8 — the "at most 8" bound
only holds for the attraction slots; the restaurant slots add up to 4
more. -/
theorem recommend_total_places_counterexample :
    ¬ (totalPlaces (recommendTrip "Paris" "medium" "culture"
        ⟨some eightAttractions⟩ ⟨some fourRestaurants⟩) ≤ 8) := by
  decide

/-- C5 amended: the six slot place-lists are pairwise disjoint index-range
slices of the two source arrays — the four attraction slots concatenate to
`attractions.take 8` and the two restaurant slots to `restaurants.take 4`
— together containing at most 12 entries total (at most 8 attractions plus
at most 4 restaurants); and when a source array has fewer elements than a
slice window requires, the later slots are empty lists. -/
theorem recommend_slots_disjoint_slices (cityName budget tripType : String)
    (A R : List Place) :
    let r := recommendTrip cityName budget tripType ⟨some A⟩ ⟨some R⟩
    (r.day1.morning.places ++ r.day1.afternoon.places ++
        r.day2.morning.places ++ r.day2.afternoon.places = A.take 8)
  ∧ (r.day1.evening.places ++ r.day2.evening.places = R.take 4)
  ∧ totalPlaces r ≤ 12
  ∧ (A.length ≤ 2 → r.day1.afternoon.places = [] ∧
        r.day2.morning.places = [] ∧ r.day2.afternoon.places = [])
  ∧ (A.length ≤ 4 → r.day2.morning.places = [] ∧
        r.day2.afternoon.places = [])
  ∧ (A.length ≤ 6 → r.day2.afternoon.places = [])
  ∧ (R.length ≤ 2 → r.day2.evening.places = []) := by
  refine ⟨?_, ?_, ?_, ?_, ?_, ?_, ?_⟩
  · show jsSlice A 0 2 ++ jsSlice A 2 4 ++ jsSlice A 4 6 ++ jsSlice A 6 8 =
      A.take 8
    simpa [jsSlice] using take_two_slices_eight A
  · show jsSlice R 0 2 ++ jsSlice R 2 4 = R.take 4
    simpa [jsSlice] using take_two_slices_four R
  · simp [totalPlaces, recommendTrip, jsSlice]
    omega
  · intro hA
    exact ⟨(jsSlice_eq_nil (by omega) : jsSlice A 2 4 = []),
      (jsSlice_eq_nil (by omega) : jsSlice A 4 6 = []),
      (jsSlice_eq_nil (by omega) : jsSlice A 6 8 = [])⟩
  · intro hA
    exact ⟨(jsSlice_eq_nil (by omega) : jsSlice A 4 6 = []),
      (jsSlice_eq_nil (by omega) : jsSlice A 6 8 = [])⟩
  · intro hA
    exact (jsSlice_eq_nil (by omega) : jsSlice A 6 8 = [])
  · intro hR
    exact (jsSlice_eq_nil (by omega) : jsSlice R 2 4 = [])

/-- Witness for `recommend_slots_disjoint_slices` at a single attraction
and no restaurants: day 2 receives only empty slots. -/
theorem recommend_slots_disjoint_slices_witness :
    (recommendTrip "Nice" "low" "relax"
        ⟨some [mkPlace "solo"]⟩ ⟨some []⟩).day2.afternoon.places = []
  ∧ (recommendTrip "Nice" "low" "relax"
        ⟨some [mkPlace "solo"]⟩ ⟨some []⟩).day2.evening.places = [] :=
  ⟨(recommend_slots_disjoint_slices "Nice" "low" "relax"
      [mkPlace "solo"] []).2.2.2.2.2.1 (by decide),
   (recommend_slots_disjoint_slices "Nice" "low" "relax"
      [mkPlace "solo"] []).2.2.2.2.2.2 (by decide)⟩

theorem empty_of_length_zero {s : String} (h : s.length = 0) : s = "" := by
  cases s with
  | mk data =>
      cases data with
      | nil => rfl
      | cons c cs => simp [String.length] at h

theorem left_empty_of_append_empty {s t : String} (h : s ++ t = "") :
    s = "" := by
  have hl := congrArg String.length h
  rw [String.length_append] at hl
  exact empty_of_length_zero (by simp at hl; omega)

/-- C6 counterexample: a three-segment photo reference passes the
`parts.length < 3` guard, so `getPhotoUrl` does not return the empty
string and interpolates `undefined` (the out-of-bounds `parts[3]`) into
the URL. -/
theorem photo_url_three_segments_counterexample :
    getPhotoUrl (some "KEY") "places/p1/photos" =
      "https://places.googleapis.com/v1/places/p1/photos/undefined/media?key=KEY&maxHeightPx=400"
  ∧ getPhotoUrl (some "KEY") "places/p1/photos" ≠ "" := by
  constructor
  · decide
  · decide

/-- C6 amended: with a configured key, `getPhotoUrl` returns the empty
string exactly when the reference has fewer than 3 slash-separated
segments; a reference with exactly 3 segments (one short of the
documented `places/{placeId}/photos/{photoId}` format) is not rejected,
and the returned URL embeds the string `undefined` as the photo id
segment. -/
theorem photo_url_segment_guard (key ref : String) :
    (getPhotoUrl (some key) ref = "" ↔ (jsSplit ref '/').length < 3)
  ∧ ((jsSplit ref '/').length = 3 →
      getPhotoUrl (some key) ref =
        "https://places.googleapis.com/v1/places/"
          ++ (jsSplit ref '/').getD 1 ""
          ++ "/photos/" ++ "undefined" ++ "/media?key="
          ++ key ++ "&maxHeightPx=400") := by
  constructor
  · constructor
    · intro h
      by_contra hlt
      push_neg at hlt
      simp only [getPhotoUrl] at h
      rw [if_neg (by omega)] at h
      have h1 := left_empty_of_append_empty h
      have h2 := left_empty_of_append_empty h1
      have h3 := left_empty_of_append_empty h2
      have h4 := left_empty_of_append_empty h3
      have h5 := left_empty_of_append_empty h4
      have h6 := left_empty_of_append_empty h5
      exact absurd h6 (by decide)
    · intro hlt
      simp only [getPhotoUrl]
      rw [if_pos hlt]
  · intro h3
    obtain ⟨a, b, c, heq⟩ := List.length_eq_three.mp h3
    simp [getPhotoUrl, heq, jsInterp]

/-- Witness for `photo_url_segment_guard` at a concrete three-segment
reference. -/
theorem photo_url_segment_guard_witness :
    getPhotoUrl (some "KEY2") "places/p2/photos" =
      "https://places.googleapis.com/v1/places/p2/photos/undefined/media?key=KEY2&maxHeightPx=400" :=
  (photo_url_segment_guard "KEY2" "places/p2/photos").2 (by decide)

/-- C7: the city search endpoint returns, on upstream success, status 200
with the `{places: ...}` body (the empty array when the upstream response
carries no `places` field), and on any failure — missing credential or
upstream non-success — status 500 with the `{error, details}` envelope. -/
theorem city_search_response_shape (apiKey : Option String)
    (upstream : Except String CitySearchResponse) :
    (∀ data, apiKey ≠ none → upstream = .ok data →
        citySearchHandler apiKey upstream =
          { status := 200, body := .placesBody (data.places.getD []) })
  ∧ (apiKey = none →
        citySearchHandler apiKey upstream =
          { status := 500
            body := .errorBody "Failed to fetch cities"
              "Google Places API key is not configured" })
  ∧ (∀ d, upstream = .error d → apiKey ≠ none →
        citySearchHandler apiKey upstream =
          { status := 500, body := .errorBody "Failed to fetch cities" d }) := by
  refine ⟨?_, ?_, ?_⟩
  · rintro data hkey rfl
    cases apiKey with
    | none => exact absurd rfl hkey
    | some k =>
        cases hplaces : data.places <;>
          simp [citySearchHandler, hplaces]
  · rintro rfl
    rfl
  · rintro d rfl hkey
    cases apiKey with
    | none => exact absurd rfl hkey
    | some k => rfl

/-- Witness for `city_search_response_shape`: the three branches at
concrete inputs. -/
theorem city_search_response_shape_witness :
    citySearchHandler (some "K") (.ok ⟨none⟩) =
      { status := 200, body := .placesBody [] }
  ∧ citySearchHandler none (.ok ⟨none⟩) =
      { status := 500
        body := .errorBody "Failed to fetch cities"
          "Google Places API key is not configured" }
  ∧ citySearchHandler (some "K") (.error "upstream 400") =
      { status := 500, body := .errorBody "Failed to fetch cities" "upstream 400" } :=
  ⟨(city_search_response_shape (some "K") (.ok ⟨none⟩)).1 ⟨none⟩
      (by simp) rfl,
   (city_search_response_shape none (.ok ⟨none⟩)).2.1 rfl,
   (city_search_response_shape (some "K") (.error "upstream 400")).2.2
      "upstream 400" rfl (by simp)⟩

/-- C8: whenever the persisted value is absent, or present but rejected by
the JSON parser, the results view renders the error screen with its
return-to-start action (and the model is a total function, so no exception
escapes). -/
theorem results_view_error_state (stored : Option (Except String Json)) :
    (stored = none →
        resultsView stored =
          .errorScreen "No trip recommendations found" "/")
  ∧ (∀ e, stored = some (.error e) →
        resultsView stored =
          .errorScreen "Failed to load trip recommendations" "/") := by
  constructor
  · rintro rfl
    rfl
  · rintro e rfl
    rfl

/-- Witness for `results_view_error_state`: the two error-producing
storage states. -/
theorem results_view_error_state_witness :
    resultsView none = .errorScreen "No trip recommendations found" "/"
  ∧ resultsView (some (.error "Unexpected token")) =
      .errorScreen "Failed to load trip recommendations" "/" :=
  ⟨(results_view_error_state none).1 rfl,
   (results_view_error_state (some (.error "Unexpected token"))).2
      "Unexpected token" rfl⟩

theorem decodePhoto_encode (p : Photo) : decodePhoto (encodePhoto p) = some p :=
  rfl

theorem decodeListWith_photos (ps : List Photo) :
    decodeListWith decodePhoto (ps.map encodePhoto) = some ps := by
  induction ps with
  | nil => rfl
  | cons p rest ih => simp [decodeListWith, decodePhoto_encode, ih]

theorem decodePlace_encode (p : Place) : decodePlace (encodePlace p) = some p := by
  obtain ⟨i, dn, fa, r, urc, ph⟩ := p
  cases r <;> cases urc <;> cases ph <;>
    simp [encodePlace, decodePlace, Json.getField, jLookup, decodeStr,
      decodeOptNum, decodeOptPhotos, decodeArrWith, decodeListWith_photos,
      Option.bind]

theorem decodeListWith_places (ps : List Place) :
    decodeListWith decodePlace (ps.map encodePlace) = some ps := by
  induction ps with
  | nil => rfl
  | cons p rest ih => simp [decodeListWith, decodePlace_encode, ih]

theorem decodeSlot_encode (s : TimeSlot) :
    decodeSlot (encodeSlot s) = some s := by
  obtain ⟨t, d, ps⟩ := s
  simp [encodeSlot, decodeSlot, Json.getField, jLookup, decodeStr,
    decodeArrWith, decodeListWith_places, Option.bind]

theorem decodeDay_encode (d : Day) : decodeDay (encodeDay d) = some d := by
  obtain ⟨m, a, e⟩ := d
  simp [encodeDay, decodeDay, Json.getField, jLookup, decodeSlot_encode,
    Option.bind]

/-- C9: serializing a structurally valid trip recommendation to its JSON
document and reading it back yields the original object, with no field
lost. -/
theorem trip_json_round_trip (t : TripRecommendation) :
    decodeTrip (encodeTrip t) = some t := by
  obtain ⟨c, d1, d2⟩ := t
  simp [encodeTrip, decodeTrip, Json.getField, jLookup, decodeStr,
    decodeDay_encode, Option.bind]
